import Mathlib

/-!
Shallow embedding of `src/main.py` (CodeNection/backend-workshop): a CRUD
backend over two SQLite tables, `projects` and `students`, related by a
nullable foreign key `students.project_id → projects.id`.

The persisted store is modelled as a `DB` structure holding the two tables
as lists of rows (in storage-native insertion order) together with the
autoincrement counters SQLite uses to generate primary keys.  Each FastAPI
handler becomes a function `DB → ... → Except HErr α × DB`: raising an
`HTTPException` before any commit is returning `.error` paired with the
unchanged store; a storage-level constraint violation at commit time
(the `unique=True` column `students.email`) is `.error .storageError` with
the persisted store likewise unchanged, since the failed transaction is
rolled back when the request-scoped session closes.  The value of `cgpa`
only ever flows through unchanged (no arithmetic is performed on it), so
it is modelled with `Rat`, which has decidable equality.
-/

namespace Workshop

/-- Row of the `projects` table (class `Project` in `main.py`). -/
structure Project where
  id : Int
  project_name : String
  project_description : String
deriving DecidableEq

/-- Row of the `students` table (class `Student` in `main.py`). -/
structure Student where
  id : Int
  name : String
  email : String
  linkedin_profile : Option String
  about_you : Option String
  specialisation : Option String
  cgpa : Option Rat
  favourite_language : Option String
  favourite_framework : Option String
  is_leader : Bool
  project_id : Option Int
deriving DecidableEq

/-- Validated request payload for projects (`ProjectBase` in `main.py`). -/
structure ProjectBase where
  project_name : String
  project_description : String
deriving DecidableEq

/-- Validated request payload for students (`StudentBase` in `main.py`):
pydantic has already filled omitted optional fields with their schema
defaults (`None`, and `False` for `is_leader`). -/
structure StudentBase where
  name : String
  email : String
  linkedin_profile : Option String
  about_you : Option String
  specialisation : Option String
  cgpa : Option Rat
  favourite_language : Option String
  favourite_framework : Option String
  is_leader : Bool
  project_id : Option Int
deriving DecidableEq

/-- The persisted relational store: the two tables plus SQLite's
primary-key autoincrement counters. -/
structure DB where
  projects : List Project
  students : List Student
  nextProjectId : Int
  nextStudentId : Int
deriving DecidableEq

/-- The store right after `Base.metadata.create_all` on a fresh database
file: both tables empty, autoincrement starting at 1. -/
def DB.empty : DB := ⟨[], [], 1, 1⟩

/-- Errors a handler can end in: `HTTPException(status, detail)` raised by
the handler itself, or a storage-level constraint violation (duplicate
`email`) surfaced at commit time. -/
inductive HErr where
  | httpException (status : Int) (detail : String)
  | storageError
deriving DecidableEq

/-- `db.query(Project).get(pid)`: primary-key lookup. -/
def getProjectById (db : DB) (pid : Int) : Option Project :=
  db.projects.find? (fun p => p.id == pid)

/-- `db.query(Student).get(sid)`: primary-key lookup. -/
def getStudentById (db : DB) (sid : Int) : Option Student :=
  db.students.find? (fun s => s.id == sid)

/-- `Student(**student.model_dump())` with storage-assigned `id`, and also
the row produced by the `setattr` loop of `update_student` (which writes
exactly the `model_dump` fields, never `id`). -/
def StudentBase.toStudent (b : StudentBase) (id : Int) : Student :=
  { id := id, name := b.name, email := b.email,
    linkedin_profile := b.linkedin_profile, about_you := b.about_you,
    specialisation := b.specialisation, cgpa := b.cgpa,
    favourite_language := b.favourite_language,
    favourite_framework := b.favourite_framework,
    is_leader := b.is_leader, project_id := b.project_id }

/-- `POST /projects/` (`create_project`): insert, commit, refresh, 201. -/
def create_project (db : DB) (project : ProjectBase) : Except HErr Project × DB :=
  let new_project : Project :=
    { id := db.nextProjectId, project_name := project.project_name,
      project_description := project.project_description }
  (.ok new_project,
   { db with projects := db.projects ++ [new_project],
             nextProjectId := db.nextProjectId + 1 })

/-- `GET /projects/` (`list_projects`). -/
def list_projects (db : DB) : Except HErr (List Project) × DB :=
  (.ok db.projects, db)

/-- `GET /projects/{project_id}` (`get_project`): 404 if absent. -/
def get_project (db : DB) (project_id : Int) : Except HErr Project × DB :=
  match getProjectById db project_id with
  | none => (.error (.httpException 404 "Project not found"), db)
  | some project => (.ok project, db)

/-- `PUT /projects/{project_id}` (`update_project`): 404 if absent, else
overwrite `project_name` and `project_description`, commit, refresh. -/
def update_project (db : DB) (project_id : Int) (updated : ProjectBase) :
    Except HErr Project × DB :=
  match getProjectById db project_id with
  | none => (.error (.httpException 404 "Project not found"), db)
  | some project =>
    let project' : Project :=
      { project with project_name := updated.project_name,
                     project_description := updated.project_description }
    (.ok project',
     { db with projects :=
         db.projects.map (fun q => if q.id == project.id then project' else q) })

/-- `DELETE /projects/{project_id}` (`delete_project`): 404 if absent,
else null out `project_id` on every student of the project (the ORM
relationship `project.students` collects exactly the students whose
`project_id` equals the project's `id`), delete the project row, commit. -/
def delete_project (db : DB) (project_id : Int) : Except HErr String × DB :=
  match getProjectById db project_id with
  | none => (.error (.httpException 404 "Project not found"), db)
  | some project =>
    (.ok "Project deleted successfully",
     { db with
         students := db.students.map
           (fun s => if s.project_id == some project.id
                     then { s with project_id := none } else s),
         projects := db.projects.filter (fun q => !(q.id == project.id)) })

/-- `GET /project_students/{project_id}` (`list_projects_with_students`):
404 if absent, else the project together with its students, the lazy
relationship being resolved (`project.students`) before returning. -/
def list_projects_with_students (db : DB) (project_id : Int) :
    Except HErr (Project × List Student) × DB :=
  match getProjectById db project_id with
  | none => (.error (.httpException 404 "Project not found"), db)
  | some project =>
    (.ok (project, db.students.filter (fun s => s.project_id == some project.id)), db)

/-- The commit of an insert into `students`: SQLite enforces the
`unique=True` constraint on `email`, so the commit fails (and the
rolled-back transaction leaves the store unchanged) when any existing row
already carries the new row's email. -/
def insertStudent (db : DB) (student : StudentBase) : Except HErr Student × DB :=
  if db.students.any (fun s => s.email == student.email) then
    (.error .storageError, db)
  else
    let new_student := student.toStudent db.nextStudentId
    (.ok new_student,
     { db with students := db.students ++ [new_student],
               nextStudentId := db.nextStudentId + 1 })

/-- `POST /students/` (`create_student`): if a `project_id` is given and no
such project exists, 400 with the offending id in the message; otherwise
insert, commit, refresh, 201. -/
def create_student (db : DB) (student : StudentBase) : Except HErr Student × DB :=
  match student.project_id with
  | some pid =>
    if (getProjectById db pid).isNone then
      (.error (.httpException 400 ("Project " ++ toString pid ++ " does not exist")), db)
    else
      insertStudent db student
  | none => insertStudent db student

/-- `GET /students/` (`list_students`). -/
def list_students (db : DB) : Except HErr (List Student) × DB :=
  (.ok db.students, db)

/-- `GET /students/{student_id}` (`get_student`): 404 if absent. -/
def get_student (db : DB) (student_id : Int) : Except HErr Student × DB :=
  match getStudentById db student_id with
  | none => (.error (.httpException 404 "Student not found"), db)
  | some student => (.ok student, db)

/-- The commit of the `setattr` full replacement in `update_student`: the
row keeps its `id`, every other column is overwritten from the payload;
the commit fails on the `email` unique constraint when a DIFFERENT row
already carries the payload's email (rewriting a row's own email to
itself is no violation). -/
def commitStudentUpdate (db : DB) (student : Student) (updated : StudentBase) :
    Except HErr Student × DB :=
  if db.students.any (fun t => !(t.id == student.id) && t.email == updated.email) then
    (.error .storageError, db)
  else
    let student' := updated.toStudent student.id
    (.ok student',
     { db with students :=
         db.students.map (fun t => if t.id == student.id then student' else t) })

/-- `PUT /students/{student_id}` (`update_student`): 404 if the student is
absent; then, if the payload's `project_id` is non-null and no such
project exists, 400 with the offending id in the message; otherwise full
replacement of every payload field, commit, refresh. -/
def update_student (db : DB) (student_id : Int) (updated : StudentBase) :
    Except HErr Student × DB :=
  match getStudentById db student_id with
  | none => (.error (.httpException 404 "Student not found"), db)
  | some student =>
    match updated.project_id with
    | some pid =>
      if (getProjectById db pid).isNone then
        (.error (.httpException 400 ("Project " ++ toString pid ++ " does not exist")), db)
      else
        commitStudentUpdate db student updated
    | none => commitStudentUpdate db student updated

/-- `DELETE /students/{student_id}` (`delete_student`): 404 if absent,
else delete the row, commit. -/
def delete_student (db : DB) (student_id : Int) : Except HErr String × DB :=
  match getStudentById db student_id with
  | none => (.error (.httpException 404 "Student not found"), db)
  | some student =>
    (.ok "Student deleted successfully",
     { db with students := db.students.filter (fun t => !(t.id == student.id)) })

/-- One request to any of the 11 exposed routes, with its inputs. -/
inductive Op where
  | createProject (project : ProjectBase)
  | listProjectsOp
  | getProject (project_id : Int)
  | updateProject (project_id : Int) (updated : ProjectBase)
  | deleteProject (project_id : Int)
  | projectStudents (project_id : Int)
  | createStudent (student : StudentBase)
  | listStudentsOp
  | getStudent (student_id : Int)
  | updateStudent (student_id : Int) (updated : StudentBase)
  | deleteStudent (student_id : Int)
deriving DecidableEq

/-- A successful response body from any of the 11 routes. -/
inductive Resp where
  | projectR (project : Project)
  | projectListR (l : List Project)
  | studentR (student : Student)
  | studentListR (l : List Student)
  | projectStudentsR (project : Project) (students : List Student)
  | messageR (message : String)
deriving DecidableEq

/-- Tags a handler result with the `Resp` constructor of its route. -/
def tagResp (f : α → Resp) : Except HErr α × DB → Except HErr Resp × DB
  | (.ok a, db) => (.ok (f a), db)
  | (.error e, db) => (.error e, db)

/-- Dispatch: run one request against the store, returning the outcome and
the persisted store afterwards. -/
def exec (op : Op) (db : DB) : Except HErr Resp × DB :=
  match op with
  | .createProject project => tagResp .projectR (create_project db project)
  | .listProjectsOp => tagResp .projectListR (list_projects db)
  | .getProject pid => tagResp .projectR (get_project db pid)
  | .updateProject pid updated => tagResp .projectR (update_project db pid updated)
  | .deleteProject pid => tagResp .messageR (delete_project db pid)
  | .projectStudents pid =>
      tagResp (fun pr => .projectStudentsR pr.1 pr.2) (list_projects_with_students db pid)
  | .createStudent student => tagResp .studentR (create_student db student)
  | .listStudentsOp => tagResp .studentListR (list_students db)
  | .getStudent sid => tagResp .studentR (get_student db sid)
  | .updateStudent sid updated => tagResp .studentR (update_student db sid updated)
  | .deleteStudent sid => tagResp .messageR (delete_student db sid)

/-- The store after a sequence of requests (each request sees the store the
previous one left behind). -/
def execSeq (ops : List Op) (db : DB) : DB :=
  ops.foldl (fun d op => (exec op d).2) db

/-- Referential integrity: every non-null `project_id` stored on a student
references an existing project row. -/
def refIntegrity (db : DB) : Prop :=
  ∀ s ∈ db.students, ∀ pid : Int, s.project_id = some pid →
    ∃ p ∈ db.projects, p.id = pid

instance (db : DB) : Decidable (refIntegrity db) := by
  unfold refIntegrity
  infer_instance

theorem getProjectById_some {db : DB} {pid : Int} {p : Project}
    (h : getProjectById db pid = some p) : p ∈ db.projects ∧ p.id = pid := by
  unfold getProjectById at h
  have hb := List.find?_some h
  change (p.id == pid) = true at hb
  exact ⟨List.mem_of_find?_eq_some h, eq_of_beq hb⟩

theorem getStudentById_some {db : DB} {sid : Int} {s : Student}
    (h : getStudentById db sid = some s) : s ∈ db.students ∧ s.id = sid := by
  unfold getStudentById at h
  have hb := List.find?_some h
  change (s.id == sid) = true at hb
  exact ⟨List.mem_of_find?_eq_some h, eq_of_beq hb⟩

theorem getProjectById_not_isNone {db : DB} {pid : Int}
    (h : (getProjectById db pid).isNone = false) : ∃ p ∈ db.projects, p.id = pid := by
  cases hq : getProjectById db pid with
  | none => rw [hq] at h; simp at h
  | some p => exact ⟨p, (getProjectById_some hq).1, (getProjectById_some hq).2⟩

theorem tagResp_snd (f : α → Resp) (r : Except HErr α × DB) :
    (tagResp f r).2 = r.2 := by
  obtain ⟨r1, rdb⟩ := r
  cases r1 <;> rfl

theorem tagResp_error {f : α → Resp} {r : Except HErr α × DB} {e : HErr}
    (h : (tagResp f r).1 = .error e) : r.1 = .error e := by
  obtain ⟨r1, rdb⟩ := r
  cases r1 with
  | ok a => simp [tagResp] at h
  | error e2 =>
      simp only [tagResp] at h
      injection h with h2
      rw [h2]

theorem insertStudent_error_frame {db : DB} {b : StudentBase} {e : HErr}
    (h : (insertStudent db b).1 = .error e) : (insertStudent db b).2 = db := by
  unfold insertStudent at h ⊢
  split at h <;> simp_all

theorem create_student_error_frame {db : DB} {b : StudentBase} {e : HErr}
    (h : (create_student db b).1 = .error e) : (create_student db b).2 = db := by
  unfold create_student at h ⊢
  revert h
  split
  · split
    · intro _; rfl
    · exact fun h => insertStudent_error_frame h
  · exact fun h => insertStudent_error_frame h

theorem commitStudentUpdate_error_frame {db : DB} {s : Student} {b : StudentBase}
    {e : HErr} (h : (commitStudentUpdate db s b).1 = .error e) :
    (commitStudentUpdate db s b).2 = db := by
  unfold commitStudentUpdate at h ⊢
  split at h <;> simp_all

theorem update_student_error_frame {db : DB} {sid : Int} {b : StudentBase} {e : HErr}
    (h : (update_student db sid b).1 = .error e) : (update_student db sid b).2 = db := by
  unfold update_student at h ⊢
  revert h
  split
  · intro _; rfl
  · split
    · split
      · intro _; rfl
      · exact fun h => commitStudentUpdate_error_frame h
    · exact fun h => commitStudentUpdate_error_frame h

theorem update_project_error_frame {db : DB} {pid : Int} {b : ProjectBase} {e : HErr}
    (h : (update_project db pid b).1 = .error e) : (update_project db pid b).2 = db := by
  unfold update_project at h ⊢
  split at h
  · rfl
  · simp_all

theorem delete_project_error_frame {db : DB} {pid : Int} {e : HErr}
    (h : (delete_project db pid).1 = .error e) : (delete_project db pid).2 = db := by
  unfold delete_project at h ⊢
  split at h
  · rfl
  · simp_all

theorem delete_student_error_frame {db : DB} {sid : Int} {e : HErr}
    (h : (delete_student db sid).1 = .error e) : (delete_student db sid).2 = db := by
  unfold delete_student at h ⊢
  split at h
  · rfl
  · simp_all

theorem list_projects_snd (db : DB) : (list_projects db).2 = db := rfl

theorem list_students_snd (db : DB) : (list_students db).2 = db := rfl

theorem get_project_snd (db : DB) (pid : Int) : (get_project db pid).2 = db := by
  unfold get_project
  split <;> rfl

theorem get_student_snd (db : DB) (sid : Int) : (get_student db sid).2 = db := by
  unfold get_student
  split <;> rfl

theorem list_projects_with_students_snd (db : DB) (pid : Int) :
    (list_projects_with_students db pid).2 = db := by
  unfold list_projects_with_students
  split <;> rfl

theorem refIntegrity_empty : refIntegrity DB.empty := by
  intro s hs
  simp [DB.empty] at hs

theorem refIntegrity_insertStudent {db : DB} {b : StudentBase} (h : refIntegrity db)
    (hnew : ∀ pid, b.project_id = some pid → ∃ p ∈ db.projects, p.id = pid) :
    refIntegrity (insertStudent db b).2 := by
  unfold insertStudent
  split
  · exact h
  · intro s hs pid hpid
    simp only [List.mem_append, List.mem_singleton] at hs
    rcases hs with hs | hs
    · exact h s hs pid hpid
    · subst hs
      exact hnew pid hpid

theorem refIntegrity_create_student {db : DB} {b : StudentBase} (h : refIntegrity db) :
    refIntegrity (create_student db b).2 := by
  unfold create_student
  split
  case h_1 pid hb =>
    split
    · exact h
    case isFalse hn =>
      refine refIntegrity_insertStudent h (fun pid2 hp2 => ?_)
      rw [hb] at hp2
      obtain rfl : pid = pid2 := by injection hp2
      exact getProjectById_not_isNone (Bool.not_eq_true _ ▸ eq_false_of_ne_true hn)
  case h_2 hb =>
    refine refIntegrity_insertStudent h (fun pid2 hp2 => ?_)
    rw [hb] at hp2
    cases hp2

theorem refIntegrity_commitStudentUpdate {db : DB} {s : Student} {b : StudentBase}
    (h : refIntegrity db)
    (hnew : ∀ pid, b.project_id = some pid → ∃ p ∈ db.projects, p.id = pid) :
    refIntegrity (commitStudentUpdate db s b).2 := by
  unfold commitStudentUpdate
  split
  · exact h
  · intro t ht pid hpid
    simp only [List.mem_map] at ht
    obtain ⟨u, hu, hut⟩ := ht
    by_cases hc : u.id = s.id
    · rw [if_pos (beq_iff_eq.mpr hc)] at hut
      subst hut
      exact hnew pid hpid
    · rw [if_neg (by simpa using hc)] at hut
      subst hut
      exact h u hu pid hpid

theorem refIntegrity_update_student {db : DB} {sid : Int} {b : StudentBase}
    (h : refIntegrity db) : refIntegrity (update_student db sid b).2 := by
  unfold update_student
  split
  · exact h
  · split
    case h_1 pid hb =>
      split
      · exact h
      case isFalse hn =>
        refine refIntegrity_commitStudentUpdate h (fun pid2 hp2 => ?_)
        rw [hb] at hp2
        obtain rfl : pid = pid2 := by injection hp2
        exact getProjectById_not_isNone (Bool.not_eq_true _ ▸ eq_false_of_ne_true hn)
    case h_2 hb =>
      refine refIntegrity_commitStudentUpdate h (fun pid2 hp2 => ?_)
      rw [hb] at hp2
      cases hp2

theorem refIntegrity_delete_student {db : DB} {sid : Int} (h : refIntegrity db) :
    refIntegrity (delete_student db sid).2 := by
  unfold delete_student
  split
  · exact h
  · intro t ht pid hpid
    exact h t (List.mem_of_mem_filter ht) pid hpid

theorem refIntegrity_create_project {db : DB} {b : ProjectBase} (h : refIntegrity db) :
    refIntegrity (create_project db b).2 := by
  intro s hs pid hpid
  obtain ⟨q, hq, hqid⟩ := h s hs pid hpid
  exact ⟨q, by simp [create_project, List.mem_append, hq], hqid⟩

theorem map_replace_ids (l : List Project) (project project' : Project)
    (hid : project'.id = project.id) :
    (l.map (fun q => if q.id == project.id then project' else q)).map Project.id =
      l.map Project.id := by
  induction l with
  | nil => rfl
  | cons a l ih =>
    simp only [List.map_cons, ih]
    by_cases hc : a.id = project.id
    · rw [if_pos (beq_iff_eq.mpr hc), hid, hc]
    · rw [if_neg (by simpa using hc)]

theorem refIntegrity_update_project {db : DB} {pid : Int} {b : ProjectBase}
    (h : refIntegrity db) : refIntegrity (update_project db pid b).2 := by
  unfold update_project
  split
  · exact h
  case h_2 project hfind =>
    dsimp only
    intro s hs pid2 hpid2
    obtain ⟨q, hq, hqid⟩ := h s hs pid2 hpid2
    have hids := map_replace_ids db.projects project
      ⟨project.id, b.project_name, b.project_description⟩ rfl
    have h1 : pid2 ∈ List.map Project.id db.projects := List.mem_map.mpr ⟨q, hq, hqid⟩
    rw [← hids] at h1
    obtain ⟨q', hq', hq'id⟩ := List.mem_map.mp h1
    exact ⟨q', hq', hq'id⟩

theorem refIntegrity_delete_project {db : DB} {pid : Int} (h : refIntegrity db) :
    refIntegrity (delete_project db pid).2 := by
  unfold delete_project
  split
  · exact h
  case h_2 project hfind =>
    intro s hs pid2 hpid2
    simp only [List.mem_map] at hs
    obtain ⟨u, hu, hus⟩ := hs
    by_cases hc : u.project_id = some project.id
    · rw [if_pos (beq_iff_eq.mpr hc)] at hus
      subst hus
      cases hpid2
    · rw [if_neg (by simpa using hc)] at hus
      subst hus
      obtain ⟨q, hq, hqid⟩ := h u hu pid2 hpid2
      refine ⟨q, List.mem_filter.mpr ⟨hq, ?_⟩, hqid⟩
      have hne : pid2 ≠ project.id := fun heq => hc (by rw [hpid2, heq])
      simp [hqid, hne]

theorem exec_preserves_refIntegrity (op : Op) (db : DB) (h : refIntegrity db) :
    refIntegrity (exec op db).2 := by
  cases op with
  | createProject b =>
      exact (tagResp_snd _ _).symm ▸ refIntegrity_create_project h
  | listProjectsOp => exact h
  | getProject pid =>
      exact ((tagResp_snd _ _).trans (get_project_snd db pid)).symm ▸ h
  | updateProject pid b =>
      exact (tagResp_snd _ _).symm ▸ refIntegrity_update_project h
  | deleteProject pid =>
      exact (tagResp_snd _ _).symm ▸ refIntegrity_delete_project h
  | projectStudents pid =>
      exact ((tagResp_snd _ _).trans
        (list_projects_with_students_snd db pid)).symm ▸ h
  | createStudent b =>
      exact (tagResp_snd _ _).symm ▸ refIntegrity_create_student h
  | listStudentsOp => exact h
  | getStudent sid =>
      exact ((tagResp_snd _ _).trans (get_student_snd db sid)).symm ▸ h
  | updateStudent sid b =>
      exact (tagResp_snd _ _).symm ▸ refIntegrity_update_student h
  | deleteStudent sid =>
      exact (tagResp_snd _ _).symm ▸ refIntegrity_delete_student h

theorem execSeq_refIntegrity (ops : List Op) {db : DB} (h : refIntegrity db) :
    refIntegrity (execSeq ops db) := by
  induction ops generalizing db with
  | nil => exact h
  | cons op ops ih =>
      exact ih (exec_preserves_refIntegrity op db h)

theorem find?_replace {l : List Student} {sid : Int} {s s' : Student}
    (hfind : l.find? (fun t => t.id == sid) = some s) (hid : s'.id = s.id) :
    (l.map (fun t => if t.id == s.id then s' else t)).find? (fun t => t.id == sid) =
      some s' := by
  have hsid : s.id = sid := by
    have hb := List.find?_some hfind
    change (s.id == sid) = true at hb
    exact eq_of_beq hb
  induction l with
  | nil => simp at hfind
  | cons a l ih =>
    by_cases ha : a.id = sid
    · have hpa : ((a.id == sid) = true) := beq_iff_eq.mpr ha
      rw [List.find?_cons_of_pos (p := fun t : Student => t.id == sid) _ hpa] at hfind
      injection hfind with hsa
      subst hsa
      rw [List.map_cons, if_pos (beq_iff_eq.mpr rfl)]
      exact List.find?_cons_of_pos (p := fun t : Student => t.id == sid) _ (by simp [hid, hsid])
    · have hpa : ¬((a.id == sid) = true) := by simpa using ha
      rw [List.find?_cons_of_neg (p := fun t : Student => t.id == sid) _ hpa] at hfind
      rw [List.map_cons]
      have hne : a.id ≠ s.id := by rw [hsid]; exact ha
      rw [if_neg (by simpa using hne)]
      rw [List.find?_cons_of_neg (p := fun t : Student => t.id == sid) _ hpa]
      exact ih hfind

theorem update_student_commit_ok {db : DB} {sid : Int} {s : Student} {b : StudentBase}
    (hs : getStudentById db sid = some s)
    (href : ∀ pid, b.project_id = some pid → (getProjectById db pid).isNone = false)
    (hemail : ∀ t ∈ db.students, t.id ≠ s.id → t.email ≠ b.email) :
    update_student db sid b = (.ok (b.toStudent s.id),
      { db with students :=
          db.students.map (fun t => if t.id == s.id then b.toStudent s.id else t) }) := by
  have hany : db.students.any (fun t => !(t.id == s.id) && t.email == b.email) = false := by
    rw [List.any_eq_false]
    intro t ht hc
    rw [Bool.and_eq_true] at hc
    have h1 : (t.id == s.id) = false := by
      cases hbe : (t.id == s.id) with
      | false => rfl
      | true => rw [hbe] at hc; simp at hc
    exact hemail t ht (ne_of_beq_false h1) (eq_of_beq hc.2)
  have hcommit : commitStudentUpdate db s b = (.ok (b.toStudent s.id),
      { db with students :=
          db.students.map (fun t => if t.id == s.id then b.toStudent s.id else t) }) := by
    unfold commitStudentUpdate
    rw [if_neg (by simp [hany])]
  unfold update_student
  rw [hs]
  dsimp only
  cases hb : b.project_id with
  | none => exact hcommit
  | some pid =>
      dsimp only
      rw [if_neg (by simp [href pid hb])]
      exact hcommit

/-! Concrete fixtures used by the witness theorems. -/

def projectAlpha : Project := ⟨1, "Alpha", "desc"⟩

def studentA : Student := ⟨1, "A", "a@x.com", none, none, none, none, none, none, false, some 1⟩

def studentB : Student := ⟨2, "B", "b@x.com", none, none, none, none, none, none, false, none⟩

def dbSample : DB := ⟨[projectAlpha], [studentA, studentB], 2, 3⟩

def payloadInvalidRef : StudentBase :=
  ⟨"A", "a@x.com", none, none, none, none, none, none, false, some 99⟩

/-- C10: every read operation — List(Project), List(Student), Get(Project),
Get(Student) and Get-Project-With-Students — returns the persisted store
unchanged, on both its success and its 404 path. -/
theorem reads_leave_store_unchanged (db : DB) (pid sid : Int) :
    (list_projects db).2 = db ∧ (list_students db).2 = db ∧
    (get_project db pid).2 = db ∧ (get_student db sid).2 = db ∧
    (list_projects_with_students db pid).2 = db :=
  ⟨rfl, rfl, get_project_snd db pid, get_student_snd db sid,
   list_projects_with_students_snd db pid⟩

/-- C9: in update-Student the not-found check precedes the reference
check: when the student id is absent, the handler answers 404 with the
store unchanged, for EVERY payload — in particular also when the
payload's `project_id` is non-null and dangling (no 400 in that case). -/
theorem update_student_notfound_first (db : DB) (sid : Int) (updated : StudentBase)
    (h : getStudentById db sid = none) :
    update_student db sid updated =
      (.error (.httpException 404 "Student not found"), db) := by
  unfold update_student
  rw [h]

/-- Witness for C9: on the empty store, updating student 1 with a payload
whose `project_id` is the dangling reference 99 yields 404, not 400. -/
theorem update_student_notfound_first_witness :
    update_student DB.empty 1 payloadInvalidRef =
      (.error (.httpException 404 "Student not found"), DB.empty) :=
  update_student_notfound_first DB.empty 1 payloadInvalidRef rfl

/-- C3: creating a Student whose `project_id` is non-null and dangling
fails with HTTP 400, the message contains the offending id, and the store
is unchanged (no Student row is added). -/
theorem create_student_invalid_reference (db : DB) (b : StudentBase) (pid : Int)
    (hb : b.project_id = some pid) (habs : getProjectById db pid = none) :
    create_student db b =
      (.error (.httpException 400 ("Project " ++ toString pid ++ " does not exist")), db) ∧
    ∃ pre post,
      "Project " ++ toString pid ++ " does not exist" = pre ++ toString pid ++ post := by
  refine ⟨?_, "Project ", " does not exist", rfl⟩
  unfold create_student
  rw [hb]
  simp [habs]

/-- Witness for C3: creating a student referencing project 99 on the empty
store fails with 400 naming id 99 and leaves the store empty. -/
theorem create_student_invalid_reference_witness :
    create_student DB.empty payloadInvalidRef =
      (.error (.httpException 400
        ("Project " ++ toString (99 : Int) ++ " does not exist")), DB.empty) ∧
    ∃ pre post,
      "Project " ++ toString (99 : Int) ++ " does not exist" =
        pre ++ toString (99 : Int) ++ post :=
  create_student_invalid_reference DB.empty payloadInvalidRef 99 rfl rfl

/-- C2: referential integrity — every one of the 11 operations preserves
the invariant that a non-null `project_id` on a stored student references
an existing project, and consequently the invariant holds after any
sequence of operations run from the empty store. -/
theorem referential_integrity_invariant :
    (∀ (op : Op) (db : DB), refIntegrity db → refIntegrity (exec op db).2) ∧
    ∀ ops : List Op, refIntegrity (execSeq ops DB.empty) :=
  ⟨exec_preserves_refIntegrity, fun ops => execSeq_refIntegrity ops refIntegrity_empty⟩

/-- Witness for C2: deleting project 1 from a store where student 1
references it preserves referential integrity. -/
theorem referential_integrity_invariant_witness :
    refIntegrity (exec (Op.deleteProject 1) dbSample).2 :=
  referential_integrity_invariant.1 (Op.deleteProject 1) dbSample (by decide)

/-- C5: atomicity — whenever one of the 11 operations ends in an error
(not-found, invalid reference, or a storage error such as a duplicate
email), the persisted store is exactly what it was before the request. -/
theorem handlers_atomic_on_error (op : Op) (db : DB) (e : HErr)
    (h : (exec op db).1 = .error e) : (exec op db).2 = db := by
  cases op with
  | createProject b =>
      simp only [exec] at h
      have h2 := tagResp_error h
      simp [create_project] at h2
  | listProjectsOp => rfl
  | getProject pid =>
      simp only [exec]
      rw [tagResp_snd]
      exact get_project_snd db pid
  | updateProject pid b =>
      simp only [exec] at h ⊢
      rw [tagResp_snd]
      exact update_project_error_frame (tagResp_error h)
  | deleteProject pid =>
      simp only [exec] at h ⊢
      rw [tagResp_snd]
      exact delete_project_error_frame (tagResp_error h)
  | projectStudents pid =>
      simp only [exec]
      rw [tagResp_snd]
      exact list_projects_with_students_snd db pid
  | createStudent b =>
      simp only [exec] at h ⊢
      rw [tagResp_snd]
      exact create_student_error_frame (tagResp_error h)
  | listStudentsOp => rfl
  | getStudent sid =>
      simp only [exec]
      rw [tagResp_snd]
      exact get_student_snd db sid
  | updateStudent sid b =>
      simp only [exec] at h ⊢
      rw [tagResp_snd]
      exact update_student_error_frame (tagResp_error h)
  | deleteStudent sid =>
      simp only [exec] at h ⊢
      rw [tagResp_snd]
      exact delete_student_error_frame (tagResp_error h)

/-- Witness for C5: a 404 Get(Project) on the empty store leaves the
store empty. -/
theorem handlers_atomic_on_error_witness :
    (exec (Op.getProject 5) DB.empty).2 = DB.empty :=
  handlers_atomic_on_error (Op.getProject 5) DB.empty
    (.httpException 404 "Project not found") rfl

def studentC : Student := ⟨1, "C", "c@x.com", none, none, some "AI", some 3, none, none, false, none⟩

def dbOneStudent : DB := ⟨[], [studentC], 1, 2⟩

def payloadReplace : StudentBase := ⟨"C2", "c2@x.com", none, none, none, none, none, none, true, none⟩

def studentA0 : Student := ⟨1, "A", "a@x.com", none, none, none, none, none, none, false, none⟩

def dbTwoStudents : DB := ⟨[], [studentA0, studentB], 1, 3⟩

def payloadDupEmail : StudentBase := ⟨"A", "b@x.com", none, none, none, none, none, none, false, none⟩

def payloadFresh : StudentBase := ⟨"A", "a2@x.com", none, none, none, none, none, none, false, none⟩

/-- C4: update-Student is a full replacement: with the student present and
the payload valid (its `project_id`, if any, references an existing
project, and its email collides with no other student), the update
succeeds, the stored row for that id becomes exactly the payload's fields
with the original `id`, and an optional field the payload omitted (pydantic
default `none`, e.g. `cgpa`) is therefore stored as `none`, not kept. -/
theorem update_student_full_replacement (db : DB) (sid : Int) (s : Student)
    (b : StudentBase)
    (hs : getStudentById db sid = some s)
    (href : ∀ pid, b.project_id = some pid → (getProjectById db pid).isNone = false)
    (hemail : ∀ t ∈ db.students, t.id ≠ s.id → t.email ≠ b.email) :
    (update_student db sid b).1 = .ok (b.toStudent s.id) ∧
    getStudentById (update_student db sid b).2 sid = some (b.toStudent s.id) ∧
    ((b.toStudent s.id).id = s.id ∧ (b.toStudent s.id).name = b.name ∧
     (b.toStudent s.id).email = b.email ∧
     (b.toStudent s.id).linkedin_profile = b.linkedin_profile ∧
     (b.toStudent s.id).about_you = b.about_you ∧
     (b.toStudent s.id).specialisation = b.specialisation ∧
     (b.toStudent s.id).cgpa = b.cgpa ∧
     (b.toStudent s.id).favourite_language = b.favourite_language ∧
     (b.toStudent s.id).favourite_framework = b.favourite_framework ∧
     (b.toStudent s.id).is_leader = b.is_leader ∧
     (b.toStudent s.id).project_id = b.project_id) ∧
    (b.cgpa = none → (b.toStudent s.id).cgpa = none) := by
  have hcommit := update_student_commit_ok hs href hemail
  rw [hcommit]
  refine ⟨rfl, ?_, ⟨rfl, rfl, rfl, rfl, rfl, rfl, rfl, rfl, rfl, rfl, rfl⟩,
    fun hnone => hnone⟩
  unfold getStudentById
  dsimp only
  exact find?_replace hs rfl

/-- Witness for C4: student 1 is stored with `cgpa = some 3`; the update
payload omits `cgpa` (schema default `none`); after the update the stored
row's `cgpa` is `none`. -/
theorem update_student_full_replacement_witness :
    (update_student dbOneStudent 1 payloadReplace).1 =
      .ok (payloadReplace.toStudent studentC.id) ∧
    getStudentById (update_student dbOneStudent 1 payloadReplace).2 1 =
      some (payloadReplace.toStudent studentC.id) ∧
    ((payloadReplace.toStudent studentC.id).id = studentC.id ∧
     (payloadReplace.toStudent studentC.id).name = payloadReplace.name ∧
     (payloadReplace.toStudent studentC.id).email = payloadReplace.email ∧
     (payloadReplace.toStudent studentC.id).linkedin_profile =
       payloadReplace.linkedin_profile ∧
     (payloadReplace.toStudent studentC.id).about_you = payloadReplace.about_you ∧
     (payloadReplace.toStudent studentC.id).specialisation =
       payloadReplace.specialisation ∧
     (payloadReplace.toStudent studentC.id).cgpa = payloadReplace.cgpa ∧
     (payloadReplace.toStudent studentC.id).favourite_language =
       payloadReplace.favourite_language ∧
     (payloadReplace.toStudent studentC.id).favourite_framework =
       payloadReplace.favourite_framework ∧
     (payloadReplace.toStudent studentC.id).is_leader = payloadReplace.is_leader ∧
     (payloadReplace.toStudent studentC.id).project_id = payloadReplace.project_id) ∧
    (payloadReplace.cgpa = none → (payloadReplace.toStudent studentC.id).cgpa = none) :=
  update_student_full_replacement dbOneStudent 1 studentC payloadReplace rfl
    (fun pid hp => by simp [payloadReplace] at hp) (by decide)

/-- C6 as stated is FALSE on the code: student 1 exists and the payload's
`project_id` is null, yet the update does not succeed — it fails with the
storage-level unique-email violation, because the payload's email is the
email of student 2. -/
theorem update_student_null_pid_counterexample :
    getStudentById dbTwoStudents 1 = some studentA0 ∧
    payloadDupEmail.project_id = none ∧
    (update_student dbTwoStudents 1 payloadDupEmail).1 = .error .storageError ∧
    (update_student dbTwoStudents 1 payloadDupEmail).1.isOk = false :=
  ⟨rfl, rfl, rfl, rfl⟩

/-- C6 amended: for every existing Student, an update whose payload has
`project_id = null` succeeds regardless of the Student's prior
affiliation, PROVIDED the payload's email does not collide with a
different student's email (otherwise the storage unique constraint fails
the write); and with a null `project_id` the invalid-reference check is
never performed — no such update can fail with HTTP 400. -/
theorem update_student_null_pid_succeeds (db : DB) (sid : Int) (s : Student)
    (b : StudentBase) (hs : getStudentById db sid = some s) (hb : b.project_id = none)
    (hemail : ∀ t ∈ db.students, t.id ≠ s.id → t.email ≠ b.email) :
    (update_student db sid b).1 = .ok (b.toStudent s.id) ∧
    ∀ (db2 : DB) (sid2 : Int) (b2 : StudentBase), b2.project_id = none →
      ∀ msg, (update_student db2 sid2 b2).1 ≠ .error (.httpException 400 msg) := by
  constructor
  · rw [update_student_commit_ok hs (fun pid hp => by rw [hb] at hp; cases hp) hemail]
  · intro db2 sid2 b2 hb2 msg
    unfold update_student
    cases hq : getStudentById db2 sid2 with
    | none => simp
    | some s2 =>
        rw [hb2]
        dsimp only
        unfold commitStudentUpdate
        split <;> simp

/-- Witness for C6 (amended): updating student 1 of a two-student store
with a null `project_id` and a fresh email succeeds. -/
theorem update_student_null_pid_succeeds_witness :
    (update_student dbTwoStudents 1 payloadFresh).1 =
      .ok (payloadFresh.toStudent studentA0.id) ∧
    ∀ (db2 : DB) (sid2 : Int) (b2 : StudentBase), b2.project_id = none →
      ∀ msg, (update_student db2 sid2 b2).1 ≠ .error (.httpException 400 msg) :=
  update_student_null_pid_succeeds dbTwoStudents 1 studentA0 payloadFresh rfl rfl
    (by decide)

/-- C1: a successful delete of project P succeeds, deletes no student
(the table keeps the same length and ids, position by position), sets
`project_id` to null on exactly the students that referenced P (all
others are untouched), and a subsequent Get(Project, P.id) fails with
HTTP 404. -/
theorem delete_project_contract (db : DB) (pid : Int) (p : Project)
    (h : getProjectById db pid = some p) :
    (delete_project db pid).1 = .ok "Project deleted successfully" ∧
    (delete_project db pid).2.students.length = db.students.length ∧
    (∀ i : Fin db.students.length,
      ∃ hlt : (i : Nat) < (delete_project db pid).2.students.length,
        ((delete_project db pid).2.students.get ⟨i, hlt⟩).id = (db.students.get i).id ∧
        ((db.students.get i).project_id = some pid →
          ((delete_project db pid).2.students.get ⟨i, hlt⟩).project_id = none) ∧
        ((db.students.get i).project_id ≠ some pid →
          (delete_project db pid).2.students.get ⟨i, hlt⟩ = db.students.get i)) ∧
    get_project (delete_project db pid).2 pid =
      (.error (.httpException 404 "Project not found"), (delete_project db pid).2) := by
  obtain ⟨hmem, hpid⟩ := getProjectById_some h
  subst hpid
  have hd : delete_project db p.id = (.ok "Project deleted successfully",
      { db with
          students := db.students.map
            (fun s => if s.project_id == some p.id
                      then { s with project_id := none } else s),
          projects := db.projects.filter (fun q => !(q.id == p.id)) }) := by
    unfold delete_project
    rw [h]
  rw [hd]
  refine ⟨rfl, by simp, ?_, ?_⟩
  · intro i
    refine ⟨by simp, ?_⟩
    have hget : (db.students.map
        (fun s => if s.project_id == some p.id
                  then { s with project_id := none } else s)).get
          ⟨(i : Nat), by simp⟩ =
        (fun s => if s.project_id == some p.id
                  then { s with project_id := none } else s) (db.students.get i) := by
      simp [List.get_eq_getElem]
    rw [hget]
    dsimp only
    by_cases hc : (db.students.get i).project_id = some p.id
    · rw [if_pos (beq_iff_eq.mpr hc)]
      exact ⟨rfl, fun _ => rfl, fun hne => absurd hc hne⟩
    · rw [if_neg (by simpa using hc)]
      exact ⟨rfl, fun heq => absurd heq hc, fun _ => rfl⟩
  · have hnone : getProjectById
        { db with
            students := db.students.map
              (fun s => if s.project_id == some p.id
                        then { s with project_id := none } else s),
            projects := db.projects.filter (fun q => !(q.id == p.id)) } p.id = none := by
      unfold getProjectById
      dsimp only
      rw [List.find?_eq_none]
      intro a ha hbeq
      have h2 := (List.mem_filter.mp ha).2
      rw [eq_of_beq hbeq] at h2
      simp at h2
    unfold get_project
    rw [hnone]

/-- Witness for C1: deleting project 1 from a store with two students, one
affiliated to it and one not. -/
theorem delete_project_contract_witness :
    (delete_project dbSample 1).1 = .ok "Project deleted successfully" ∧
    (delete_project dbSample 1).2.students.length = dbSample.students.length ∧
    (∀ i : Fin dbSample.students.length,
      ∃ hlt : (i : Nat) < (delete_project dbSample 1).2.students.length,
        ((delete_project dbSample 1).2.students.get ⟨i, hlt⟩).id =
          (dbSample.students.get i).id ∧
        ((dbSample.students.get i).project_id = some 1 →
          ((delete_project dbSample 1).2.students.get ⟨i, hlt⟩).project_id = none) ∧
        ((dbSample.students.get i).project_id ≠ some 1 →
          (delete_project dbSample 1).2.students.get ⟨i, hlt⟩ =
            dbSample.students.get i)) ∧
    get_project (delete_project dbSample 1).2 1 =
      (.error (.httpException 404 "Project not found"), (delete_project dbSample 1).2) :=
  delete_project_contract dbSample 1 projectAlpha rfl

/-- C7: Get-Project-With-Students returns 404 when the project id is
absent; when present it returns the project together with exactly the
students whose `project_id` equals it (resolved at request time), the
store unchanged, and when the project has zero students the returned
collection is empty rather than an error. -/
theorem project_with_students_contract (db : DB) (pid : Int) :
    (getProjectById db pid = none →
      list_projects_with_students db pid =
        (.error (.httpException 404 "Project not found"), db)) ∧
    ∀ p, getProjectById db pid = some p →
      ∃ l, list_projects_with_students db pid = (.ok (p, l), db) ∧
        (∀ s, s ∈ l ↔ s ∈ db.students ∧ s.project_id = some pid) ∧
        ((∀ s ∈ db.students, s.project_id ≠ some pid) → l = []) := by
  constructor
  · intro h
    unfold list_projects_with_students
    rw [h]
  · intro p hp
    obtain ⟨hmem, hpid⟩ := getProjectById_some hp
    subst hpid
    refine ⟨db.students.filter (fun s => s.project_id == some p.id), ?_, ?_, ?_⟩
    · unfold list_projects_with_students
      rw [hp]
    · intro s
      rw [List.mem_filter]
      constructor
      · rintro ⟨h1, h2⟩
        exact ⟨h1, eq_of_beq h2⟩
      · rintro ⟨h1, h2⟩
        exact ⟨h1, beq_iff_eq.mpr h2⟩
    · intro hall
      rw [List.filter_eq_nil_iff]
      intro a ha hbeq
      exact hall a ha (eq_of_beq hbeq)

def dbProjectNoStudents : DB := ⟨[projectAlpha], [studentB], 2, 3⟩

/-- Witness for C7: project 1 exists and no student references it; the
returned student collection is empty. -/
theorem project_with_students_contract_witness :
    ∃ l, list_projects_with_students dbProjectNoStudents 1 =
        (.ok (projectAlpha, l), dbProjectNoStudents) ∧
      (∀ s, s ∈ l ↔ s ∈ dbProjectNoStudents.students ∧ s.project_id = some 1) ∧
      ((∀ s ∈ dbProjectNoStudents.students, s.project_id ≠ some 1) → l = []) :=
  (project_with_students_contract dbProjectNoStudents 1).2 projectAlpha rfl

/-- The wire-level response of a route. -/
structure HttpResponse where
  status : Int
  body : String
deriving DecidableEq

/-- Modelled from the spec: the HTTP serialization layer (the web
framework, an excluded external collaborator) is missing from `src/`; per
the spec, the delete routes' declared no-content success status makes the
handler's constructed confirmation body unreachable, so a success on a
route declared `status_code=204` goes on the wire as status 204 with an
empty body. -/
def respond (declaredStatus : Int) (body : String) : HttpResponse :=
  if declaredStatus == 204 then ⟨204, ""⟩ else ⟨declaredStatus, body⟩

/-- `DELETE /projects/{id}` as served: the handler's result serialized
under the route's declared success status 204. -/
def delete_project_response (db : DB) (pid : Int) : Except HErr HttpResponse × DB :=
  match delete_project db pid with
  | (.ok m, db2) => (.ok (respond 204 m), db2)
  | (.error e, db2) => (.error e, db2)

/-- `DELETE /students/{id}` as served: the handler's result serialized
under the route's declared success status 204. -/
def delete_student_response (db : DB) (sid : Int) : Except HErr HttpResponse × DB :=
  match delete_student db sid with
  | (.ok m, db2) => (.ok (respond 204 m), db2)
  | (.error e, db2) => (.error e, db2)

/-- C8: every successful delete — of a project or of a student — responds
with HTTP status 204 and an empty body. -/
theorem delete_responses_204_empty (db : DB) (pid sid : Int) :
    ((getProjectById db pid).isSome = true →
      delete_project_response db pid = (.ok ⟨204, ""⟩, (delete_project db pid).2)) ∧
    ((getStudentById db sid).isSome = true →
      delete_student_response db sid = (.ok ⟨204, ""⟩, (delete_student db sid).2)) := by
  constructor
  · intro hp
    cases hq : getProjectById db pid with
    | none => rw [hq] at hp; simp at hp
    | some p =>
        unfold delete_project_response delete_project
        rw [hq]
        rfl
  · intro hp
    cases hq : getStudentById db sid with
    | none => rw [hq] at hp; simp at hp
    | some s =>
        unfold delete_student_response delete_student
        rw [hq]
        rfl

/-- Witness for C8: deleting project 1 and student 2 of the sample store
both answer 204 with an empty body. -/
theorem delete_responses_204_empty_witness :
    delete_project_response dbSample 1 =
      (.ok ⟨204, ""⟩, (delete_project dbSample 1).2) ∧
    delete_student_response dbSample 2 =
      (.ok ⟨204, ""⟩, (delete_student dbSample 2).2) :=
  ⟨(delete_responses_204_empty dbSample 1 2).1 rfl,
   (delete_responses_204_empty dbSample 1 2).2 rfl⟩

end Workshop
